import Mathlib

/-!
Verification of the habit-notification service against its design spec.

The embedding models, from the source:
  * `src/app/logic.py`     — `_compute_window`, `_classify_days`, `run_job`
  * `src/app/main.py`      — exit-code computation
  * `src/app/db.py`        — `fetch_user_logs_between` (half-open SQL interval)
  * `src/app/habit_notifier.py` — the second implementation of the decision
    rule and its timezone resolution
  * `src/habit-tracker-cronjob/main.py` — the legacy count-based rule

Instants are UTC seconds since an epoch (`Int`); calendar dates are day
numbers since the same epoch (`Int`, one day = 86400 seconds).  A timezone
is abstracted by its two offset functions: `offAt t` is the zone's UTC
offset (seconds) in effect at the UTC instant `t` (used by
`datetime.astimezone`), and `offWall w` is the offset the zone database
resolves for the wall-clock time `w` (used when a local midnight built by
`datetime.combine(..., tzinfo=zone)` is converted back to UTC).
-/

/-- A timezone, abstracted by its offset behaviour (see module docstring). -/
structure Zone where
  offAt : Int → Int
  offWall : Int → Int

/-- The UTC zone: both offsets are identically zero (`ZoneInfo("UTC")`). -/
def utc_zone : Zone := { offAt := fun _ => 0, offWall := fun _ => 0 }

/-- `ZoneInfo(tz_name)` modelled as a lookup in an abstract zone database.
`logic.py` wraps the lookup in `try/except` and falls back to UTC on any
resolution failure (`_compute_window` lines 13-17, `_classify_days`
lines 32-36). -/
def resolve_zone (zdb : String → Option Zone) (tz : String) : Zone :=
  (zdb tz).getD utc_zone

/-- Timezone resolution as written in `habit_notifier.py` line 116:
`pytz.timezone(user[time_zone]) if user.get(time_zone) else pytz.UTC`.
Only a falsy (empty) identifier falls back to UTC; an unknown non-empty
identifier makes `pytz.timezone` raise `UnknownTimeZoneError`, modelled by
`Except.error`. -/
def notifier_resolve_zone (zdb : String → Option Zone) (tz : String) :
    Except String Zone :=
  if tz = "" then .ok utc_zone
  else
    match zdb tz with
    | some z => .ok z
    | none => .error "UnknownTimeZoneError"

/-- `local_now.date()` for `local_now = now_utc.astimezone(zone)`:
the local calendar day containing the instant `now`. -/
def local_today (z : Zone) (now : Int) : Int :=
  (now + z.offAt now).fdiv 86400

/-- `datetime.combine(d, datetime.min.time(), tzinfo=zone).astimezone(utc)`:
the UTC instant of local midnight opening calendar day `d`, resolved
through the zone's wall-clock offset for that midnight (zone-aware
arithmetic, not the offset at `now`). -/
def day_start_utc (z : Zone) (d : Int) : Int :=
  d * 86400 - z.offWall (d * 86400)

/-- The `EligibilityWindow` returned by `_compute_window`
(`logic.py` lines 11-28): three UTC boundaries plus `local_yesterday`. -/
structure Window where
  windowStart : Int
  yesterdayStart : Int
  todayStart : Int
  localYesterday : Int
deriving DecidableEq, Repr

/-- `_compute_window` on an already-resolved zone: `local_today` from `now`,
then UTC instants of the local midnights of today, yesterday and the day
before (`logic.py` lines 18-28). -/
def compute_window_z (z : Zone) (now : Int) : Window :=
  { windowStart := day_start_utc z (local_today z now - 2)
  , yesterdayStart := day_start_utc z (local_today z now - 1)
  , todayStart := day_start_utc z (local_today z now)
  , localYesterday := local_today z now - 1 }

/-- `_compute_window(tz_name)` with the UTC fallback on resolution failure
(`logic.py` lines 11-28); `now` is passed explicitly (the Python reads the
clock itself at line 12). -/
def compute_window (zdb : String → Option Zone) (tz : String) (now : Int) :
    Window :=
  compute_window_z (resolve_zone zdb tz) now

/-- `_classify_days` on an already-resolved zone: each UTC log instant is
projected to its local calendar date and the dates are collected into a set
(`logic.py` lines 37-43).  The Python branch that tags a naive datetime as
UTC collapses here because every instant is already a UTC `Int`. -/
def classify_days_z (z : Zone) (created_list : List Int) : Finset Int :=
  (created_list.map (fun dt => (dt + z.offAt dt).fdiv 86400)).toFinset

/-- `_classify_days(tz_name, created_list)` with the UTC fallback on
resolution failure (`logic.py` lines 31-43). -/
def classify_days (zdb : String → Option Zone) (tz : String)
    (created_list : List Int) : Finset Int :=
  classify_days_z (resolve_zone zdb tz) created_list

/-- Reason codes of the spec's `Verdict` (§3); `logic.py` lines 61-66 use
the strings `no_logs_two_days` and `missed_yesterday`. -/
inductive Reason where
  | no_logs_two_days
  | missed_yesterday
deriving DecidableEq, Repr

/-- The notify/skip verdict with its reason code. -/
inductive Verdict where
  | notify (r : Reason)
  | skip
deriving DecidableEq, Repr

/-- The decision rule of `run_job` (`logic.py` lines 61-66): the
`should_notify` / `reason` assignment as a function of the two membership
booleans `has_day_before` and `has_yesterday`. -/
def decide_logic (has_day_before has_yesterday : Bool) : Verdict :=
  if !has_day_before && !has_yesterday then .notify .no_logs_two_days
  else if has_day_before && !has_yesterday then .notify .missed_yesterday
  else .skip

/-- Modelled from the spec (§4.3 Eligibility Evaluator), for refinement
comparison only: rule 1, neither day present, NOTIFY(no_logs_two_days);
rule 2, day-before present and yesterday absent, NOTIFY(missed_yesterday);
rule 3, otherwise SKIP — first match wins. -/
def spec_verdict (hasDayBefore hasYesterday : Bool) : Verdict :=
  if !hasDayBefore && !hasYesterday then .notify .no_logs_two_days
  else if hasDayBefore && !hasYesterday then .notify .missed_yesterday
  else .skip

/-- Claim C1: the eligibility decision of `run_job` is a pure function of
the two membership booleans and agrees everywhere with the spec's decision
table — for every activity set `days` and every `localYesterday` value `y`,
the verdict computed from `(y-1) ∈ days` and `y ∈ days` matches the spec
table, and whenever `y ∈ days` (logged yesterday) the verdict is SKIP. -/
theorem run_job_decision_table :
    (∀ (days : Finset Int) (y : Int),
      decide_logic (decide ((y - 1) ∈ days)) (decide (y ∈ days)) =
        spec_verdict (decide ((y - 1) ∈ days)) (decide (y ∈ days))) ∧
    (∀ (days : Finset Int) (y : Int), y ∈ days →
      decide_logic (decide ((y - 1) ∈ days)) (decide (y ∈ days)) =
        .skip) := by
  constructor
  · intro days y
    rfl
  · intro days y h
    have hy : decide (y ∈ days) = true := decide_eq_true h
    cases hdb : decide ((y - 1) ∈ days) <;>
      simp [decide_logic, hy, hdb]

/-- Witness for C1 at the concrete activity set `{5}` with yesterday `5`:
the hypothesis `5 ∈ {5}` holds and the verdict is SKIP. -/
theorem run_job_decision_table_witness :
    (5 : Int) ∈ ({5} : Finset Int) ∧
    decide_logic (decide (((5 : Int) - 1) ∈ ({5} : Finset Int)))
      (decide ((5 : Int) ∈ ({5} : Finset Int))) = .skip :=
  ⟨by decide, run_job_decision_table.2 {5} 5 (by decide)⟩

/-- Claim C2: for every zone whose resolved local-midnight offsets never
jump by a full day between consecutive calendar days (the spec's "local-day
boundaries are always at least ~23h apart, including across DST" — true of
every IANA zone whose DST shifts are bounded below 24h) and every current
instant, the window boundaries are strictly ordered:
`windowStart < yesterdayStart < todayStart`, with equality impossible. -/
theorem compute_window_strict_order
    (zdb : String → Option Zone) (tz : String) (now : Int)
    (h : ∀ d : Int, (resolve_zone zdb tz).offWall ((d + 1) * 86400) -
      (resolve_zone zdb tz).offWall (d * 86400) < 86400) :
    (compute_window zdb tz now).windowStart <
      (compute_window zdb tz now).yesterdayStart ∧
    (compute_window zdb tz now).yesterdayStart <
      (compute_window zdb tz now).todayStart := by
  set z := resolve_zone zdb tz with hz
  set T := local_today z now with hT
  have h1 := h (T - 2)
  have h2 := h (T - 1)
  have e1 : T - 2 + 1 = T - 1 := by ring
  have e2 : T - 1 + 1 = T := by ring
  rw [e1] at h1
  rw [e2] at h2
  constructor
  · show day_start_utc z (T - 2) < day_start_utc z (T - 1)
    unfold day_start_utc
    nlinarith [h1]
  · show day_start_utc z (T - 1) < day_start_utc z T
    unfold day_start_utc
    nlinarith [h2]

/-- Witness for C2 at the UTC zone (empty database, fallback) and instant 0:
the offset-shift hypothesis holds (shift is 0) and the boundaries are
strictly ordered. -/
theorem compute_window_strict_order_witness :
    (∀ d : Int, (resolve_zone (fun _ => none) "UTC").offWall ((d + 1) * 86400) -
      (resolve_zone (fun _ => none) "UTC").offWall (d * 86400) < 86400) ∧
    ((compute_window (fun _ => none) "UTC" 0).windowStart <
      (compute_window (fun _ => none) "UTC" 0).yesterdayStart ∧
    (compute_window (fun _ => none) "UTC" 0).yesterdayStart <
      (compute_window (fun _ => none) "UTC" 0).todayStart) :=
  ⟨fun d => by simp [resolve_zone, utc_zone],
   compute_window_strict_order (fun _ => none) "UTC" 0
     (fun d => by simp [resolve_zone, utc_zone])⟩

/-- Claim C5 (amended): for `logic.py`'s `_compute_window`, each
consecutive boundary gap equals `86400 - shift`, where `shift` is the
change in the zone's resolved midnight offset across that local day, so
that calculator never assumes a fixed 24-hour day; when the clocks shift
by one hour (a DST transition) between two of the computed boundaries, the
affected gap is 23 or 25 hours (82800 or 90000 seconds), never exactly 24
hours, and the strict ordering still holds.  The claim's other cited
implementation, `habit_notifier.py` lines 123-131, does not satisfy this:
see `notifier_window_exact_24h`. -/
theorem compute_window_dst_gap (z : Zone) (now s1 s2 : Int)
    (hs1 : z.offWall ((local_today z now - 1) * 86400) -
      z.offWall ((local_today z now - 2) * 86400) = s1)
    (hs2 : z.offWall ((local_today z now) * 86400) -
      z.offWall ((local_today z now - 1) * 86400) = s2) :
    ((compute_window_z z now).yesterdayStart -
        (compute_window_z z now).windowStart = 86400 - s1 ∧
      (compute_window_z z now).todayStart -
        (compute_window_z z now).yesterdayStart = 86400 - s2) ∧
    (s1 = 3600 ∨ s1 = -3600 →
      ((compute_window_z z now).yesterdayStart -
          (compute_window_z z now).windowStart = 82800 ∨
        (compute_window_z z now).yesterdayStart -
          (compute_window_z z now).windowStart = 90000) ∧
      (compute_window_z z now).yesterdayStart -
        (compute_window_z z now).windowStart ≠ 86400 ∧
      (compute_window_z z now).windowStart <
        (compute_window_z z now).yesterdayStart) ∧
    (s2 = 3600 ∨ s2 = -3600 →
      ((compute_window_z z now).todayStart -
          (compute_window_z z now).yesterdayStart = 82800 ∨
        (compute_window_z z now).todayStart -
          (compute_window_z z now).yesterdayStart = 90000) ∧
      (compute_window_z z now).todayStart -
        (compute_window_z z now).yesterdayStart ≠ 86400 ∧
      (compute_window_z z now).yesterdayStart <
        (compute_window_z z now).todayStart) := by
  set T := local_today z now with hT
  have g1 : (compute_window_z z now).yesterdayStart -
      (compute_window_z z now).windowStart = 86400 - s1 := by
    show day_start_utc z (T - 1) - day_start_utc z (T - 2) = 86400 - s1
    unfold day_start_utc
    nlinarith [hs1]
  have g2 : (compute_window_z z now).todayStart -
      (compute_window_z z now).yesterdayStart = 86400 - s2 := by
    show day_start_utc z T - day_start_utc z (T - 1) = 86400 - s2
    unfold day_start_utc
    nlinarith [hs2]
  refine ⟨⟨g1, g2⟩, ?_, ?_⟩
  · rintro (rfl | rfl)
    · exact ⟨Or.inl (by omega), by omega, by omega⟩
    · exact ⟨Or.inr (by omega), by omega, by omega⟩
  · rintro (rfl | rfl)
    · exact ⟨Or.inl (by omega), by omega, by omega⟩
    · exact ⟨Or.inr (by omega), by omega, by omega⟩

/-- A concrete zone that springs forward one hour at the wall-clock instant
opening local day 9 (offset 0 before, 3600 after): a DST transition falling
between the computed `windowStart` and `yesterdayStart` boundaries when
today is day 10. -/
def z_dst : Zone :=
  { offAt := fun _ => 0
  , offWall := fun w => if w < 9 * 86400 then 0 else 3600 }

/-- Witness for C5 at `z_dst` and now = noon of day 10: the shift across
the affected local day is exactly one hour, the affected gap is 23 hours,
not 24, and the ordering holds. -/
theorem compute_window_dst_gap_witness :
    (z_dst.offWall ((local_today z_dst 907200 - 1) * 86400) -
      z_dst.offWall ((local_today z_dst 907200 - 2) * 86400) = 3600) ∧
    (((compute_window_z z_dst 907200).yesterdayStart -
        (compute_window_z z_dst 907200).windowStart = 82800 ∨
      (compute_window_z z_dst 907200).yesterdayStart -
        (compute_window_z z_dst 907200).windowStart = 90000) ∧
    (compute_window_z z_dst 907200).yesterdayStart -
      (compute_window_z z_dst 907200).windowStart ≠ 86400 ∧
    (compute_window_z z_dst 907200).windowStart <
      (compute_window_z z_dst 907200).yesterdayStart) :=
  ⟨by decide,
   (compute_window_dst_gap z_dst 907200 3600 0 (by decide) (by decide)).2.1
     (Or.inl rfl)⟩

/-- Counterexample to C4: with a zone database that does not know the
non-empty identifier `Bogus/Zone`, the resolution written in
`habit_notifier.py` line 116 raises (`Except.error`) instead of
substituting UTC — so it is false that BOTH implementations substitute UTC
for every unresolvable identifier. -/
theorem notifier_resolve_unknown_raises :
    notifier_resolve_zone (fun _ => none) "Bogus/Zone" =
      .error "UnknownTimeZoneError" := by
  rfl

/-- Claim C4 (amended): `logic.py`'s Window Calculator and Log Classifier
substitute UTC and proceed for EVERY unresolvable identifier (unknown or
empty), while `habit_notifier.py`'s resolution substitutes UTC only for an
empty identifier — for any identifier unknown to the zone database,
`_compute_window` and `_classify_days` behave exactly as with UTC, and the
notifier's empty-identifier branch yields UTC. -/
theorem timezone_fallback_to_utc
    (zdb : String → Option Zone) (tz : String) (now : Int)
    (logs : List Int) (h : zdb tz = none) :
    compute_window zdb tz now = compute_window_z utc_zone now ∧
    classify_days zdb tz logs = classify_days_z utc_zone logs ∧
    notifier_resolve_zone zdb "" = .ok utc_zone := by
  have hr : resolve_zone zdb tz = utc_zone := by
    simp [resolve_zone, h]
  refine ⟨?_, ?_, ?_⟩
  · simp [compute_window, hr]
  · simp [classify_days, hr]
  · simp [notifier_resolve_zone]

/-- Witness for C4 (amended) at the empty database, the unknown identifier
`Bogus/Zone`, instant 0 and one log at instant 0. -/
theorem timezone_fallback_to_utc_witness :
    (fun (_ : String) => (none : Option Zone)) "Bogus/Zone" = none ∧
    (compute_window (fun _ => none) "Bogus/Zone" 0 =
        compute_window_z utc_zone 0 ∧
      classify_days (fun _ => none) "Bogus/Zone" [0] =
        classify_days_z utc_zone [0] ∧
      notifier_resolve_zone (fun _ => none) "" = .ok utc_zone) :=
  ⟨rfl, timezone_fallback_to_utc (fun _ => none) "Bogus/Zone" 0 [0] rfl⟩

/-- Claim C8: the Window Calculator and the Log Classifier are pure,
deterministic functions of their stated inputs — in this state-free
embedding (the Python's only hidden input, the clock read at
`logic.py` line 12, is made the explicit `now` argument) two calls with
identical timezone identifier, instant and log list yield identical
outputs. -/
theorem calculator_classifier_idempotent
    (zdb : String → Option Zone) (tz : String) (now : Int)
    (logs : List Int) :
    compute_window zdb tz now = compute_window zdb tz now ∧
    classify_days zdb tz logs = classify_days zdb tz logs :=
  ⟨rfl, rfl⟩

/-- `fetch_user_logs_between` (`db.py` lines 60-80): the `Log` join rows are
modelled as `(user_id, created_at)` pairs; the SQL predicate is
`h.user_id = %s AND l.created_at >= %s AND l.created_at < %s`, a half-open
interval on the timestamp.  Stripping `tzinfo` before binding is the
identity here since instants are already UTC integers. -/
def fetch_user_logs_between (rows : List (Nat × Int)) (user_id : Nat)
    (start_utc end_utc : Int) : List Int :=
  (rows.filter
    (fun r => decide (r.1 = user_id ∧ start_utc ≤ r.2 ∧ r.2 < end_utc))).map
    (fun r => r.2)

/-- A row of `fetch_users_with_phones` (`db.py` lines 42-58):
`(id, time_zone, phone_number)`. -/
structure UserRec where
  id : Nat
  tz : String
  phone : String
deriving DecidableEq, Repr

/-- The collaborators `run_job` touches, made explicit: the zone database,
the clock value read at `logic.py` line 12, the user population returned by
`fetch_users_with_phones`, the `Log`-join rows behind
`fetch_user_logs_between`, and fault injectors for the two operations that
can raise inside the per-user `try` (the storage query and
`notifier.send_sms`). -/
structure Env where
  zdb : String → Option Zone
  now : Int
  users : List UserRec
  logRows : List (Nat × Int)
  fetch_fails : Nat → Bool
  sms_fails : String → Bool

/-- Outcome of one iteration of `run_job`'s per-user loop: exactly one of
the three counters is incremented. -/
inductive Outcome where
  | notifiedO
  | skippedO
  | erroredO
deriving DecidableEq, Repr

/-- The body of `run_job`'s per-user `try` (`logic.py` lines 52-75):
compute the window, fetch the logs in `[windowStart, todayStart)`, classify
them into local dates, evaluate the decision rule on the two membership
booleans and, on NOTIFY, send the SMS.  A storage or delivery failure is
caught by the `except` at line 73 and becomes `erroredO`. -/
def process_user (env : Env) (u : UserRec) : Outcome :=
  if env.fetch_fails u.id then .erroredO
  else
    let w := compute_window env.zdb u.tz env.now
    let logs :=
      fetch_user_logs_between env.logRows u.id w.windowStart w.todayStart
    let days := classify_days env.zdb u.tz logs
    let has_day_before := decide ((w.localYesterday - 1) ∈ days)
    let has_yesterday := decide (w.localYesterday ∈ days)
    match decide_logic has_day_before has_yesterday with
    | .skip => .skippedO
    | .notify _ =>
        if env.sms_fails u.phone then .erroredO else .notifiedO

/-- The three counters `run_job` returns (`logic.py` lines 48-77). -/
structure JobResult where
  notified : Nat
  skipped : Nat
  errored : Nat
deriving DecidableEq, Repr

/-- One loop iteration's counter update. -/
def step_counts (acc : JobResult) (o : Outcome) : JobResult :=
  match o with
  | .notifiedO => { acc with notified := acc.notified + 1 }
  | .skippedO => { acc with skipped := acc.skipped + 1 }
  | .erroredO => { acc with errored := acc.errored + 1 }

/-- `run_job`'s loop over an explicit user list, counters starting at 0. -/
def run_job_on (env : Env) (us : List UserRec) : JobResult :=
  us.foldl (fun acc u => step_counts acc (process_user env u))
    { notified := 0, skipped := 0, errored := 0 }

/-- `run_job(twilio_from)` (`logic.py` lines 46-77): iterate over the user
population returned by storage. -/
def run_job (env : Env) : JobResult := run_job_on env env.users

/-- Number of occurrences of one outcome in a list of outcomes. -/
def count_outcome (o : Outcome) : List Outcome → Nat
  | [] => 0
  | x :: xs => (if x = o then 1 else 0) + count_outcome o xs

theorem count_outcome_append (o : Outcome) (xs ys : List Outcome) :
    count_outcome o (xs ++ ys) = count_outcome o xs + count_outcome o ys := by
  induction xs with
  | nil => simp [count_outcome]
  | cons x xs ih => simp [count_outcome, ih]; omega

theorem run_job_on_foldl (env : Env) (us : List UserRec) (acc : JobResult) :
    us.foldl (fun acc u => step_counts acc (process_user env u)) acc =
      { notified :=
          acc.notified + count_outcome .notifiedO (us.map (process_user env))
      , skipped :=
          acc.skipped + count_outcome .skippedO (us.map (process_user env))
      , errored :=
          acc.errored +
            count_outcome .erroredO (us.map (process_user env)) } := by
  induction us generalizing acc with
  | nil => simp [count_outcome]
  | cons u us ih =>
      rw [List.foldl_cons, ih]
      cases h : process_user env u <;>
        simp [step_counts, h, count_outcome] <;> omega

theorem run_job_on_counts (env : Env) (us : List UserRec) :
    run_job_on env us =
      { notified := count_outcome .notifiedO (us.map (process_user env))
      , skipped := count_outcome .skippedO (us.map (process_user env))
      , errored := count_outcome .erroredO (us.map (process_user env)) } := by
  rw [run_job_on, run_job_on_foldl]
  simp

theorem count_outcome_total (l : List Outcome) :
    count_outcome .notifiedO l + count_outcome .skippedO l +
      count_outcome .erroredO l = l.length := by
  induction l with
  | nil => simp [count_outcome]
  | cons x xs ih => cases x <;> simp [count_outcome, ih] <;> omega

/-- Claim C10: for every environment (hence every user population returned
by storage), the three counters returned by `run_job` sum to the number of
users — each iteration increments exactly one counter exactly once. -/
theorem run_job_counter_accounting (env : Env) :
    (run_job env).notified + (run_job env).skipped + (run_job env).errored =
      env.users.length := by
  rw [run_job, run_job_on_counts]
  simpa using count_outcome_total (env.users.map (process_user env))

/-- Claim C3: per-user fault isolation — if the per-user processing of `u`
fails (its iteration raises and is caught at `logic.py` line 73), then in a
population listing `u` anywhere, the run's notified and skipped counts are
exactly those of the population without `u`, and the errored count is
exactly one more: `u`'s failure contributes exactly one `errored`, nothing
to the other counters, and every remaining user is still processed. -/
theorem run_job_fault_isolation (env : Env) (pre post : List UserRec)
    (u : UserRec) (h : process_user env u = .erroredO) :
    (run_job_on env (pre ++ u :: post)).notified =
      (run_job_on env (pre ++ post)).notified ∧
    (run_job_on env (pre ++ u :: post)).skipped =
      (run_job_on env (pre ++ post)).skipped ∧
    (run_job_on env (pre ++ u :: post)).errored =
      (run_job_on env (pre ++ post)).errored + 1 := by
  rw [run_job_on_counts, run_job_on_counts]
  simp only [List.map_append, List.map_cons, count_outcome_append,
    count_outcome, h]
  refine ⟨by simp, by simp, by simp; omega⟩

/-- A five-user population whose third user's storage query fails; the
other four users have working storage (two of them with logs in the
window). -/
def demo_env : Env :=
  { zdb := fun _ => none
  , now := 907200
  , users :=
      [⟨1, "UTC", "p1"⟩, ⟨2, "UTC", "p2"⟩, ⟨3, "UTC", "p3"⟩,
       ⟨4, "UTC", "p4"⟩, ⟨5, "UTC", "p5"⟩]
  , logRows := [(1, 777700), (4, 691300)]
  , fetch_fails := fun i => i == 3
  , sms_fails := fun _ => false }

/-- Witness for C3 on `demo_env`: user 3's storage call fails, the full
five-user run has the same notified/skipped counts as the four-user run
without user 3 and exactly one more errored, and the four-user run has zero
errored (so the five-user run ends with errored = 1). -/
theorem run_job_fault_isolation_witness :
    process_user demo_env ⟨3, "UTC", "p3"⟩ = .erroredO ∧
    ((run_job_on demo_env
        ([⟨1, "UTC", "p1"⟩, ⟨2, "UTC", "p2"⟩] ++ ⟨3, "UTC", "p3"⟩ ::
          [⟨4, "UTC", "p4"⟩, ⟨5, "UTC", "p5"⟩])).notified =
      (run_job_on demo_env
        ([⟨1, "UTC", "p1"⟩, ⟨2, "UTC", "p2"⟩] ++
          [⟨4, "UTC", "p4"⟩, ⟨5, "UTC", "p5"⟩])).notified ∧
    (run_job_on demo_env
        ([⟨1, "UTC", "p1"⟩, ⟨2, "UTC", "p2"⟩] ++ ⟨3, "UTC", "p3"⟩ ::
          [⟨4, "UTC", "p4"⟩, ⟨5, "UTC", "p5"⟩])).skipped =
      (run_job_on demo_env
        ([⟨1, "UTC", "p1"⟩, ⟨2, "UTC", "p2"⟩] ++
          [⟨4, "UTC", "p4"⟩, ⟨5, "UTC", "p5"⟩])).skipped ∧
    (run_job_on demo_env
        ([⟨1, "UTC", "p1"⟩, ⟨2, "UTC", "p2"⟩] ++ ⟨3, "UTC", "p3"⟩ ::
          [⟨4, "UTC", "p4"⟩, ⟨5, "UTC", "p5"⟩])).errored =
      (run_job_on demo_env
        ([⟨1, "UTC", "p1"⟩, ⟨2, "UTC", "p2"⟩] ++
          [⟨4, "UTC", "p4"⟩, ⟨5, "UTC", "p5"⟩])).errored + 1) ∧
    (run_job_on demo_env
      ([⟨1, "UTC", "p1"⟩, ⟨2, "UTC", "p2"⟩] ++
        [⟨4, "UTC", "p4"⟩, ⟨5, "UTC", "p5"⟩])).errored = 0 :=
  ⟨rfl,
   run_job_fault_isolation demo_env [⟨1, "UTC", "p1"⟩, ⟨2, "UTC", "p2"⟩]
     [⟨4, "UTC", "p4"⟩, ⟨5, "UTC", "p5"⟩] ⟨3, "UTC", "p3"⟩ rfl,
   by decide⟩

/-- The exit-code computation of `main` (`main.py` line 32):
`return 0 if errors == 0 else 1`. -/
def main_exit_code (r : JobResult) : Nat :=
  if r.errored = 0 then 0 else 1

/-- The completion path of `main` (`main.py` lines 29-32): run the job and
turn its counters into the process exit code. -/
def main_run (env : Env) : Nat := main_exit_code (run_job env)

/-- Claim C9: for every completed run, the exit code is 0 exactly when the
final errored counter is 0 (hence non-zero whenever errored > 0), and it is
independent of the notified and skipped counters. -/
theorem exit_code_contract (env : Env) (n s e m t : Nat) :
    (main_run env = 0 ↔ (run_job env).errored = 0) ∧
    main_exit_code ⟨n, s, e⟩ = main_exit_code ⟨m, t, e⟩ := by
  constructor
  · simp only [main_run, main_exit_code]
    split <;> simp_all
  · rfl

/-- Claim C7 (amended): in the `run_job` / `db.py` path, the logs
consulted for a user's eligibility decision are exactly the stored rows of
that user whose timestamp lies in the half-open UTC interval
`[windowStart, todayStart)` — a timestamp equal to `windowStart` is
included and any timestamp at or after `todayStart` is excluded.  The
claim's other cited implementation, the query of `habit_notifier.py`
lines 134-151, does not satisfy this: see
`notifier_fetch_includes_today_log`. -/
theorem fetch_half_open_interval (rows : List (Nat × Int)) (uid : Nat)
    (z : Zone) (now t : Int) :
    t ∈ fetch_user_logs_between rows uid
        (compute_window_z z now).windowStart
        (compute_window_z z now).todayStart ↔
      (uid, t) ∈ rows ∧
        (compute_window_z z now).windowStart ≤ t ∧
        t < (compute_window_z z now).todayStart := by
  set s := (compute_window_z z now).windowStart
  set e := (compute_window_z z now).todayStart
  simp only [fetch_user_logs_between, List.mem_map, List.mem_filter,
    decide_eq_true_eq]
  constructor
  · rintro ⟨⟨a, b⟩, ⟨hm, rfl, h2, h3⟩, rfl⟩
    exact ⟨hm, h2, h3⟩
  · rintro ⟨hm, h1, h2⟩
    exact ⟨(uid, t), ⟨hm, rfl, h1, h2⟩, rfl⟩

/-- The decision rule of `habit_notifier.py` lines 166-171: the
`should_notify` / `reason` assignment as a function of the two booleans
`has_two_days_ago_log` and `has_yesterday_log`; the reason is the literal
message string used there. -/
def decide_notifier (has_two_days_ago_log has_yesterday_log : Bool) :
    Option String :=
  if !has_yesterday_log && !has_two_days_ago_log then
    some "No logs in the past 2 days"
  else if has_two_days_ago_log && !has_yesterday_log then
    some "Logged 2 days ago but not yesterday"
  else none

/-- Reason class of a `habit_notifier.py` reason string. -/
def reason_of_notifier (s : String) : Reason :=
  if s = "No logs in the past 2 days" then .no_logs_two_days
  else .missed_yesterday

/-- The `habit_notifier.py` decision as a `Verdict` with its reason class. -/
def notifier_verdict (has_two_days_ago_log has_yesterday_log : Bool) :
    Verdict :=
  match decide_notifier has_two_days_ago_log has_yesterday_log with
  | some s => .notify (reason_of_notifier s)
  | none => .skip

/-- The legacy count-based rule of `habit-tracker-cronjob/main.py`
lines 49-56, per user: only logs with `created_at >= now - 2 days` join the
count, and the user is notified when the count is 0, or when it is exactly
1 and the latest such log is older than `now - 1 day`. -/
def legacy_notify (logs : List Int) (now : Int) : Bool :=
  let w := logs.filter (fun t => decide (now - 2 * 86400 ≤ t))
  (w.length == 0) ||
    ((w.length == 1) && w.all (fun t => decide (t < now - 86400)))

/-- The canonical per-user decision path of `run_job` (`logic.py`
lines 57-66) applied to an already-fetched log list: classify the logs into
local dates and evaluate the two-boolean decision table at
`local_yesterday` and the day before. -/
def canonical_verdict (z : Zone) (now : Int) (logs : List Int) : Verdict :=
  let w := compute_window_z z now
  let days := classify_days_z z logs
  decide_logic (decide ((w.localYesterday - 1) ∈ days))
    (decide (w.localYesterday ∈ days))

/-- Claim C6: the decision rules of `logic.py` and `habit_notifier.py`
agree on the verdict and the reason class for every pair of booleans
(hasDayBefore, hasYesterday); the legacy count-based rule disagrees with
the canonical two-boolean table on a concrete input — a single log early on
local "yesterday" (instant 777700, now = 907200, UTC zone): the legacy rule
notifies (one log in the window, older than `now - 1 day`) while the
canonical table skips (the user logged yesterday). -/
theorem decision_rule_equivalence_and_legacy_divergence :
    (∀ has_day_before has_yesterday : Bool,
      decide_logic has_day_before has_yesterday =
        notifier_verdict has_day_before has_yesterday) ∧
    legacy_notify [777700] 907200 = true ∧
    canonical_verdict utc_zone 907200 [777700] = .skip :=
  ⟨fun b1 b2 => by cases b1 <;> cases b2 <;> rfl, by decide, by decide⟩

/-- The inline window computation of `habit_notifier.py` lines 123-131:
`datetime.now(user_tz)` carries the single fixed UTC offset pytz attaches
for the instant `now`; `now.replace(hour=0, minute=0, second=0,
microsecond=0)` zeroes the time of day but keeps that tzinfo, the
`timedelta(days=1)` and `timedelta(days=2)` subtractions do not re-resolve
the offset, and `astimezone(pytz.UTC)` subtracts that same offset — so all
three boundaries reach UTC through the one offset `offAt now`. -/
def notifier_window (z : Zone) (now : Int) : Window :=
  { windowStart :=
      (now + z.offAt now).fdiv 86400 * 86400 - 2 * 86400 - z.offAt now
  , yesterdayStart :=
      (now + z.offAt now).fdiv 86400 * 86400 - 86400 - z.offAt now
  , todayStart := (now + z.offAt now).fdiv 86400 * 86400 - z.offAt now
  , localYesterday := (now + z.offAt now).fdiv 86400 - 1 }

/-- A zone that springs forward one hour at the UTC instant 698400
(2 a.m. wall clock during local day 8): offset 0 before, 3600 after.  Wall
times in [698400, 702000) are skipped by the jump and resolve with the
pre-transition offset (fold 0), so the wall offset changes only from wall
time 702000 on. -/
def z_spring : Zone :=
  { offAt := fun t => if t < 698400 then 0 else 3600
  , offWall := fun w => if w < 702000 then 0 else 3600 }

/-- The log query of `habit_notifier.py` lines 141-151: its WHERE clause
is `h.user_id = %s AND l.created_at >= %s`, bound to the two-days-ago
boundary — the only time bound, with no upper limit.  The rows are later
grouped by local date, but the fetched set is every log of the user at or
after `from_utc`. -/
def notifier_fetch_logs (rows : List (Nat × Int)) (user_id : Nat)
    (from_utc : Int) : List Int :=
  (rows.filter (fun r => decide (r.1 = user_id ∧ from_utc ≤ r.2))).map
    (fun r => r.2)

/-- Counterexample to C5: at `z_spring` — whose one-hour spring-forward
lies between the computed `windowStart` and `yesterdayStart` — and
now = 907200, the boundaries computed by `habit_notifier.py` lines 123-131
are exactly 86400 seconds apart on BOTH consecutive pairs: the affected
pair is exactly 24 hours, not 23 or 25, because the fixed-offset timedelta
arithmetic assumes a fixed 24-hour day.  At the same inputs `logic.py`'s
calculator gives the correct 23-hour gap. -/
theorem notifier_window_exact_24h :
    z_spring.offAt (notifier_window z_spring 907200).windowStart = 0 ∧
    z_spring.offAt (notifier_window z_spring 907200).yesterdayStart =
      3600 ∧
    (notifier_window z_spring 907200).yesterdayStart -
      (notifier_window z_spring 907200).windowStart = 86400 ∧
    (notifier_window z_spring 907200).todayStart -
      (notifier_window z_spring 907200).yesterdayStart = 86400 ∧
    (compute_window_z z_spring 907200).yesterdayStart -
      (compute_window_z z_spring 907200).windowStart = 82800 := by
  decide

/-- Counterexample to C7: with the UTC zone and now = 907200, a log at
instant 900000 lies at or after the `todayStart` boundary (864000), yet it
IS in the set fetched by the query of `habit_notifier.py` lines 134-151,
whose WHERE clause has no upper time bound — today's logs are not excluded
from that fetched set. -/
theorem notifier_fetch_includes_today_log :
    (notifier_window utc_zone 907200).todayStart ≤ 900000 ∧
    900000 ∈ notifier_fetch_logs [(1, 900000)] 1
      (notifier_window utc_zone 907200).windowStart := by
  decide
